import Mathlib

/-!
Verification development for the remote-evaluation bridge of this repository
(the `_evaluateInternal` / `convertArgument` / `valueFromRemoteObject` /
`rewriteError` module).  The JavaScript source is shallowly embedded: JS
values relevant to the bridge are an inductive type, the four bridge
functions are Lean functions, and the asynchronous transport is a
parameter mapping a command to either a response or a rejection message.
-/

namespace Bridge

/-- JS numbers as the bridge observes them: the four unserializable
sentinels (`-0`, `NaN`, `Infinity`, `-Infinity`) plus finite numbers
(`finite 0` is positive zero; `-0` is the separate constructor, mirroring
the bit-pattern distinction that `Object.is` sees). -/
inductive JSNum where
  | negZero
  | nan
  | inf
  | negInf
  | finite (q : ℚ)
deriving DecidableEq, Repr

/-- JS values passed to / produced by the bridge.  A `handle` is a
`JSHandle`: its `_disposed` flag and the four fields of its
`_remoteObject` (`type`, `unserializableValue`, `value`, `objectId`) are
inlined as constructor arguments.  `func src` is a JS function whose
`toString()` prints `src`; `obj` stands for any other plain object,
opaque to the bridge. -/
inductive JSValue where
  | num (n : JSNum)
  | bigint (i : ℤ)
  | str (s : String)
  | bool (b : Bool)
  | null
  | undefined
  | func (source : String)
  | obj (id : ℕ)
  | handle (disposed : Bool) (type : Option String)
      (unserializableValue : Option String) (value : Option JSValue)
      (objectId : Option String)
deriving Repr

/-- A `Protocol.Runtime.RemoteObject` (and, with `type`/`objectId` absent,
a `Protocol.Runtime.CallArgument`): a JS record whose absent fields are
`none`. -/
structure RemoteObject where
  type : Option String := none
  unserializableValue : Option String := none
  value : Option JSValue := none
  objectId : Option String := none
deriving Repr

/-- JS truthiness of an optional string field: `undefined` and `""` are
falsy, every other string truthy. -/
def strTruthy : Option String → Bool
  | none => false
  | some s => !s.data.isEmpty

/-- One parsed stack frame (file / function / line / column where
derivable), the element shape produced by the imported stack parsing. -/
structure StackFrame where
  fileName : Option String := none
  functionName : Option String := none
  lineNumber : Option ℕ := none
  columnNumber : Option ℕ := none
deriving DecidableEq, Repr

/-- The errors the bridge can raise.  Each constructor models one
`throw new Error(...)` site (or the structured `SymbolicateableError`):
`unsupportedUnserializable tag` is `'Unsupported unserializable value: ' + tag`;
`handleDisposed` is `'JSHandle is disposed!'`;
`malformedCallable` is `'Passed function is not well-serializable!'`;
`expectedStringOrFunction` is `'Expected to get |string| or |function| ...'`;
`executionContextDestroyed` is `'Execution context was destroyed, ...'`;
`syntaxError s` is the host `SyntaxError` of `BigInt(s)` on malformed text;
`transport msg` is an unrewritten transport rejection re-raised unchanged. -/
inductive BridgeError where
  | unsupportedUnserializable (tag : String)
  | handleDisposed
  | malformedCallable
  | expectedStringOrFunction
  | executionContextDestroyed
  | syntaxError (s : String)
  | transport (msg : String)
  | remoteFailure (stack : String) (name : String) (message : String)
      (frame : Option ℤ) (stackFrame : List StackFrame)
deriving Repr

/-! ### JS string primitives

The JS string operations the bridge uses (`includes`, `endsWith`,
`startsWith`, `substring`, `split('\n')`) are modelled over the
character list of the string. -/

/-- Does `pat` occur as a contiguous substring of `l`
(JS `String.prototype.includes`)? -/
def containsSub (l pat : List Char) : Bool :=
  if pat.isPrefixOf l then true
  else match l with
    | [] => false
    | _ :: t => containsSub t pat

/-- JS `String.prototype.includes`. -/
def jsIncludes (s pat : String) : Bool := containsSub s.data pat.data

/-- JS `String.prototype.endsWith`. -/
def jsEndsWith (s pat : String) : Bool := pat.data.isSuffixOf s.data

/-- JS `String.prototype.startsWith`. -/
def jsStartsWith (s pat : String) : Bool := pat.data.isPrefixOf s.data

/-- JS `String.prototype.substring(n)`. -/
def jsDropChars (s : String) (n : ℕ) : String := ⟨s.data.drop n⟩

/-- Split a character list at each `'\n'` (JS `split('\n')` on the
character level): always returns at least one (possibly empty) line. -/
def splitLinesChar : List Char → List (List Char)
  | [] => [[]]
  | c :: t =>
    match splitLinesChar t with
    | [] => [[]]
    | l :: ls => if c = '\n' then [] :: l :: ls else (c :: l) :: ls

/-- JS `String.prototype.split('\n')`. -/
def jsSplitNewline (s : String) : List String :=
  (splitLinesChar s.data).map fun l => ⟨l⟩

/-! ### Decimal printing and parsing (host `BigInt.toString` / `BigInt()`) -/

/-- The character for a decimal digit `d < 10`. -/
def digitChar (d : ℕ) : Char := Char.ofNat (48 + d)

/-- Numeric value of a decimal digit character. -/
def digitVal (c : Char) : ℕ := c.toNat - 48

/-- Is `c` one of `'0'`..`'9'`? -/
def isDecDigit (c : Char) : Bool := 48 ≤ c.toNat && c.toNat ≤ 57

/-- Most-significant-first valuation of a decimal digit list. -/
def msfVal (l : List ℕ) : ℕ := l.foldl (fun a d => a * 10 + d) 0

/-- Parse a nonempty all-digit character list; `none` otherwise. -/
def decNat? (cs : List Char) : Option ℕ :=
  if cs ≠ [] ∧ cs.all isDecDigit then some (msfVal (cs.map digitVal)) else none

/-- Base-10 digits of `n`, least significant first, computed with `fuel`
recursion depth (`fuel ≥ n` suffices). -/
def toDigitsRevAux : ℕ → ℕ → List ℕ
  | _, 0 => []
  | 0, _ + 1 => []
  | f + 1, n + 1 => (n + 1) % 10 :: toDigitsRevAux f ((n + 1) / 10)

/-- Base-10 digits of `n`, least significant first. -/
def toDigitsRev (n : ℕ) : List ℕ := toDigitsRevAux n n

/-- Decimal digit string of a natural number (host `toString` on a
nonnegative big integer). -/
def natToDecimal (n : ℕ) : String :=
  if n = 0 then "0" else ⟨(toDigitsRev n).reverse.map digitChar⟩

/-- Host `BigInt.prototype.toString`: decimal digits, `-`-prefixed when
negative. -/
def jsBigIntToString (i : ℤ) : String :=
  if i < 0 then "-" ++ natToDecimal i.natAbs else natToDecimal i.natAbs

/-- Host `BigInt(string)` on our inputs: empty string is `0n`, optional
leading `-` then decimal digits; `none` models the thrown `SyntaxError`. -/
def jsBigIntOfString? (s : String) : Option ℤ :=
  if s.data = [] then some 0
  else if s.data.head? = some '-' then (decNat? s.data.tail).map (fun n => -(n : ℤ))
  else (decNat? s.data).map (fun n => (n : ℤ))

/-- `s.replace('n', '')` for the single-character pattern `'n'`: JS
`String.replace` with a string pattern removes only the first occurrence. -/
def removeFirstNChar : List Char → List Char
  | [] => []
  | c :: cs => if c = 'n' then cs else c :: removeFirstNChar cs

/-- String version of `removeFirstNChar`. -/
def jsReplaceFirstN (s : String) : String := ⟨removeFirstNChar s.data⟩

/-! ### The four bridge functions -/

/-- `valueFromRemoteObject`: decodes a wire `RemoteObject`.  A truthy
`unserializableValue` tag is decoded as a big integer when the response's
`type` is `'bigint'` (the host `BigInt` is assumed available, i.e.
`typeof BigInt !== 'undefined'`), else by the four-case switch, else the
fatal `Unsupported unserializable value` error; without a truthy tag the
plain `value` field is returned (absent meaning `undefined`). -/
def valueFromRemoteObject (r : RemoteObject) : Except BridgeError JSValue :=
  if strTruthy r.unserializableValue then
    let u := r.unserializableValue.getD ""
    if r.type = some "bigint" then
      match jsBigIntOfString? (jsReplaceFirstN u) with
      | some i => .ok (.bigint i)
      | none => .error (.syntaxError (jsReplaceFirstN u))
    else
      if u = "-0" then .ok (.num .negZero)
      else if u = "NaN" then .ok (.num .nan)
      else if u = "Infinity" then .ok (.num .inf)
      else if u = "-Infinity" then .ok (.num .negInf)
      else .error (.unsupportedUnserializable u)
  else .ok (r.value.getD .undefined)

/-- `convertArgument`: marshals one caller argument into a
`Protocol.Runtime.CallArgument`.  The checks run in source order: the
`typeof arg === 'bigint'` check, the four `Object.is` sentinel checks,
the `JSHandle` branch (disposed check, then the handle's own tag, then
its plain value when it has no `objectId`, then the `objectId`
reference), and finally the plain `{value: arg}` default. -/
def convertArgument (arg : JSValue) : Except BridgeError RemoteObject :=
  match arg with
  | .bigint i => .ok { unserializableValue := some (jsBigIntToString i ++ "n") }
  | .num .negZero => .ok { unserializableValue := some "-0" }
  | .num .inf => .ok { unserializableValue := some "Infinity" }
  | .num .negInf => .ok { unserializableValue := some "-Infinity" }
  | .num .nan => .ok { unserializableValue := some "NaN" }
  | .handle disposed _ty uv v oid =>
    if disposed then .error .handleDisposed
    else if strTruthy uv then .ok { unserializableValue := uv }
    else if !strTruthy oid then .ok { value := v }
    else .ok { objectId := oid }
  | a => .ok { value := some a }

/-- A `Runtime.evaluate` / `Runtime.callFunctionOn` response:
`exceptionDetails.exception` with its `className` and `description`
(the source casts both to `string`, so they are modelled as present),
and the `result` remote object. -/
structure ExceptionPayload where
  className : String
  description : String
deriving Repr

/-- The transport response shape the bridge destructures. -/
structure EvalResponse where
  exceptionDetails : Option ExceptionPayload := none
  result : RemoteObject := {}
deriving Repr

/-- `rewriteError`: classifies a transport rejection by its message.
Two `includes` patterns are downgraded to the synthetic empty success
`{result: {type: 'undefined'}}`; two `endsWith` patterns are replaced by
the canonical context-destroyed error; anything else is re-raised
unchanged. -/
def rewriteError (msg : String) : Except BridgeError EvalResponse :=
  if jsIncludes msg "Object reference chain is too long" then
    .ok { result := { type := some "undefined" } }
  else if jsIncludes msg "Object couldn't be returned by value" then
    .ok { result := { type := some "undefined" } }
  else if jsEndsWith msg "Cannot find context with specified id"
      || jsEndsWith msg "Inspected target navigated or closed" then
    .error .executionContextDestroyed
  else .error (.transport msg)

/-! ### The invoker `_evaluateInternal` -/

/-- `EVALUATION_SCRIPT_URL`. -/
def EVALUATION_SCRIPT_URL : String := "__puppeteer_evaluation_script__"

/-- The appended `suffix` line. -/
def sourceUrlSuffix : String := "//# sourceURL=" ++ EVALUATION_SCRIPT_URL

/-- JS `\s` restricted to the characters that can occur here. -/
def jsSpace (c : Char) : Bool :=
  c = ' ' || c = '\t' || c = '\n' || c = '\r' || c = '\x0b' || c = '\x0c'

/-- The part of `SOURCE_URL_REGEX` after `sourceURL=`: the rest of the
line must be whitespace, a single non-whitespace token (possibly empty),
then whitespace up to the line end (`\s*(\S*?)\s*$`). -/
def sourceUrlRestMatch (cs : List Char) : Bool :=
  ((cs.dropWhile jsSpace).dropWhile (fun c => !jsSpace c)).all jsSpace

/-- One line of text against `SOURCE_URL_REGEX`
(`^[\040\t]*\/\/[@#] sourceURL=\s*(\S*?)\s*$`): optional spaces/tabs,
`//`, `@` or `#`, then `\x20sourceURL=`, then `sourceUrlRestMatch`. -/
def sourceUrlLineMatch (line : String) : Bool :=
  match line.data.dropWhile (fun c => c = ' ' || c = '\t') with
  | '/' :: '/' :: m :: rest =>
    (m = '@' || m = '#') && " sourceURL=".data.isPrefixOf rest
      && sourceUrlRestMatch (rest.drop 11)
  | _ => false

/-- `SOURCE_URL_REGEX.test(expression)`: the `m`-flagged regex matches
iff some `\n`-separated line matches. -/
def sourceUrlTest (s : String) : Bool :=
  (splitLinesChar s.data).any fun l => sourceUrlLineMatch ⟨l⟩

/-- The single asynchronous command a call issues: either
`Runtime.evaluate` (expression text, context id, and the three literal
flags `returnByValue`/`awaitPromise`/`userGesture`) or
`Runtime.callFunctionOn` (declaration text, context id, marshalled
arguments, same flags). -/
inductive Command where
  | evaluate (expression : String) (contextId : ℕ)
      (returnByValue awaitPromise userGesture : Bool)
  | callFunctionOn (functionDeclaration : String) (executionContextId : ℕ)
      (args : List RemoteObject) (returnByValue awaitPromise userGesture : Bool)
deriving Repr

/-- Host facilities the bridge consumes but does not define:
`parses t` is whether `new Function(t)` accepts `t`, and `parseStack`
is the imported stack parsing of the description's lines (modelled as an
abstract host function returning the ordered frame list it derives;
the bridge forwards its output unexamined). -/
structure Host where
  parses : String → Bool
  parseStack : List String → List StackFrame

/-- A transport outcome: a response, or a rejection carrying a message. -/
def TransportResult := Except String EvalResponse

/-- Common response handling of both call shapes: a rejection goes
through `rewriteError` (`.catch(rewriteError)`); a response with an
exception payload raises the structured `SymbolicateableError` built
from the payload (name from `className`, message the first line of
`description`, stack the full `description`, frames from `parseStack`
on the description's lines, plus the caller's `frame` index); otherwise
the result is decoded by `valueFromRemoteObject`. -/
def handleResponse (host : Host) (frame : Option ℤ) (resp : TransportResult) :
    Except BridgeError JSValue :=
  match (match resp with | .error msg => rewriteError msg | .ok r => .ok r) with
  | .error e => .error e
  | .ok r =>
    match r.exceptionDetails with
    | some ed =>
      .error (.remoteFailure ed.description ed.className
        ((jsSplitNewline ed.description).headD "") frame
        (host.parseStack (jsSplitNewline ed.description)))
    | none => valueFromRemoteObject r.result

/-- The single repair attempted on callable text that failed to parse:
`'async function ' + functionText.substring('async '.length)` when the
text starts with `'async '`, else `'function ' + functionText`. -/
def repairedText (source : String) : String :=
  if jsStartsWith source "async " then "async function " ++ jsDropChars source 6
  else "function " ++ source

/-- `_evaluateInternal`, with the transport as an explicit parameter and
the list of issued commands returned alongside the outcome (empty when
the call aborts before `client.send`).  String `pageFunction`: append
the marker unless `SOURCE_URL_REGEX` already matches, send
`Runtime.evaluate`.  Non-string non-function: the local
expected-string-or-function error.  Function: take its printed source,
check `new Function('(' + text + ')')`, on failure repair once
(`'async function ' + text.substring(6)` when the text starts with
`'async '`, else `'function ' + text`), failing again is the malformed
error; then marshal the arguments in order (a marshalling error aborts
before the command is built) and send `Runtime.callFunctionOn` with the
declaration text `text + '\n' + suffix + '\n'`. -/
def evaluateInternal (host : Host) (transport : Command → TransportResult)
    (contextId : ℕ) (pageFunction : JSValue) (frame : Option ℤ)
    (args : List JSValue) : Except BridgeError JSValue × List Command :=
  match pageFunction with
  | .str expression =>
    let expressionWithSourceUrl :=
      if sourceUrlTest expression then expression
      else expression ++ "\n" ++ sourceUrlSuffix
    let cmd := Command.evaluate expressionWithSourceUrl contextId true true true
    (handleResponse host frame (transport cmd), [cmd])
  | .func source =>
    let attempt : Except BridgeError String :=
      if host.parses ("(" ++ source ++ ")") then .ok source
      else if host.parses ("(" ++ repairedText source ++ ")") then .ok (repairedText source)
      else .error .malformedCallable
    match attempt with
    | .error e => (.error e, [])
    | .ok functionText =>
      match args.mapM convertArgument with
      | .error e => (.error e, [])
      | .ok margs =>
        let cmd := Command.callFunctionOn
          (functionText ++ "\n" ++ sourceUrlSuffix ++ "\n") contextId margs
          true true true
        (handleResponse host frame (transport cmd), [cmd])
  | _ => (.error .expectedStringOrFunction, [])

/-- Is the value a `JSHandle` whose `_disposed` flag is set? -/
def isDisposedHandle : JSValue → Bool
  | .handle true _ _ _ _ => true
  | _ => false

/-- Is the value a string (the source's `isString` check)? -/
def isStringValue : JSValue → Bool
  | .str _ => true
  | _ => false

/-- Is the value a function (`typeof pageFunction === 'function'`)? -/
def isFunctionValue : JSValue → Bool
  | .func _ => true
  | _ => false

/-- A minimal host: nothing parses, stack parsing yields no frames. -/
def trivHost : Host := ⟨fun _ => false, fun _ => []⟩

/-- A host accepting every function text. -/
def permissiveHost : Host := ⟨fun _ => true, fun _ => []⟩

/-- A transport that answers every command with a plain-value response. -/
def okTransport (v : JSValue) : Command → TransportResult :=
  fun _ => .ok { result := { value := some v } }

/-! ### Decimal round-trip lemmas -/

theorem toDigitsRevAux_eq : ∀ f n, n ≤ f → toDigitsRevAux f n = Nat.digits 10 n := by
  intro f
  induction f with
  | zero =>
    intro n hn
    have : n = 0 := Nat.le_zero.mp hn
    subst this
    simp [toDigitsRevAux]
  | succ f ih =>
    intro n hn
    match n with
    | 0 => simp [toDigitsRevAux]
    | m + 1 =>
      have hdiv : (m + 1) / 10 ≤ f := by
        have := Nat.div_lt_self (Nat.succ_pos m) (by norm_num : 1 < 10)
        omega
      rw [toDigitsRevAux, ih _ hdiv, Nat.digits_def' (by norm_num : 1 < 10) (Nat.succ_pos m)]

theorem toDigitsRev_eq (n : ℕ) : toDigitsRev n = Nat.digits 10 n :=
  toDigitsRevAux_eq n n le_rfl

theorem msfVal_append (l : List ℕ) (d : ℕ) : msfVal (l ++ [d]) = msfVal l * 10 + d := by
  simp [msfVal, List.foldl_append]

theorem msfVal_reverse (L : List ℕ) : msfVal L.reverse = Nat.ofDigits 10 L := by
  induction L with
  | nil => simp [msfVal, Nat.ofDigits_nil]
  | cons d L ih =>
    rw [List.reverse_cons, msfVal_append, ih, Nat.ofDigits_cons]
    ring

theorem digitVal_digitChar (d : ℕ) (hd : d < 10) : digitVal (digitChar d) = d := by
  interval_cases d <;> decide

theorem isDecDigit_digitChar (d : ℕ) (hd : d < 10) : isDecDigit (digitChar d) = true := by
  interval_cases d <;> decide

theorem map_digitVal_digitChar (L : List ℕ) (h : ∀ d ∈ L, d < 10) :
    (L.map digitChar).map digitVal = L := by
  induction L with
  | nil => rfl
  | cons d t ih =>
    simp only [List.map_cons]
    rw [digitVal_digitChar d (h d (List.mem_cons_self d t)),
      ih fun x hx => h x (List.mem_cons_of_mem d hx)]

theorem natToDecimal_data (n : ℕ) (hn : n ≠ 0) :
    (natToDecimal n).data = (Nat.digits 10 n).reverse.map digitChar := by
  simp [natToDecimal, hn, toDigitsRev_eq]

theorem natToDecimal_all_digits (n : ℕ) :
    ∀ c ∈ (natToDecimal n).data, isDecDigit c = true := by
  by_cases hn : n = 0
  · subst hn; decide
  · rw [natToDecimal_data n hn]
    intro c hc
    obtain ⟨d, hd, rfl⟩ := List.mem_map.mp hc
    exact isDecDigit_digitChar d
      (Nat.digits_lt_base (by norm_num) (List.mem_reverse.mp hd))

theorem natToDecimal_ne_nil (n : ℕ) : (natToDecimal n).data ≠ [] := by
  by_cases hn : n = 0
  · subst hn; decide
  · rw [natToDecimal_data n hn]
    simp [Nat.digits_ne_nil_iff_ne_zero.mpr hn]

theorem decNat?_natToDecimal (n : ℕ) : decNat? (natToDecimal n).data = some n := by
  by_cases hn : n = 0
  · subst hn; decide
  · rw [natToDecimal_data n hn]
    have hlt : ∀ d ∈ (Nat.digits 10 n).reverse, d < 10 := fun d hd =>
      Nat.digits_lt_base (by norm_num) (List.mem_reverse.mp hd)
    have hall : ((Nat.digits 10 n).reverse.map digitChar).all isDecDigit = true := by
      rw [List.all_eq_true]
      intro c hc
      obtain ⟨d, hd, rfl⟩ := List.mem_map.mp hc
      exact isDecDigit_digitChar d (hlt d hd)
    have hne : (Nat.digits 10 n).reverse.map digitChar ≠ [] := by
      simp [Nat.digits_ne_nil_iff_ne_zero.mpr hn]
    rw [decNat?, if_pos ⟨hne, hall⟩, map_digitVal_digitChar _ hlt,
      msfVal_reverse, Nat.ofDigits_digits]

theorem jsBigIntToString_data_neg (i : ℤ) (hneg : i < 0) :
    (jsBigIntToString i).data = '-' :: (natToDecimal i.natAbs).data := by
  rw [jsBigIntToString, if_pos hneg, String.data_append]
  rfl

theorem jsBigIntToString_data_nonneg (i : ℤ) (hneg : ¬i < 0) :
    (jsBigIntToString i).data = (natToDecimal i.natAbs).data := by
  rw [jsBigIntToString, if_neg hneg]

theorem jsBigIntToString_parse (i : ℤ) :
    jsBigIntOfString? (jsBigIntToString i) = some i := by
  by_cases hneg : i < 0
  · rw [jsBigIntOfString?, jsBigIntToString_data_neg i hneg]
    rw [if_neg (by simp)]
    simp only [List.head?_cons, List.tail_cons]
    rw [if_pos trivial, decNat?_natToDecimal]
    show some (-(i.natAbs : ℤ)) = some i
    congr 1
    omega
  · rw [jsBigIntOfString?, jsBigIntToString_data_nonneg i hneg]
    rw [if_neg (natToDecimal_ne_nil i.natAbs)]
    have hhead : ¬(natToDecimal i.natAbs).data.head? = some '-' := by
      cases he : (natToDecimal i.natAbs).data with
      | nil => exact absurd he (natToDecimal_ne_nil i.natAbs)
      | cons c t =>
        have hc : isDecDigit c = true := by
          refine natToDecimal_all_digits i.natAbs c ?_
          rw [he]
          exact List.mem_cons_self c t
        simp only [List.head?_cons, Option.some.injEq]
        intro hcm
        rw [hcm] at hc
        exact absurd hc (by decide)
    rw [if_neg hhead, decNat?_natToDecimal]
    show some ((i.natAbs : ℤ)) = some i
    congr 1
    omega

theorem jsBigIntToString_no_n (i : ℤ) : ∀ c ∈ (jsBigIntToString i).data, c ≠ 'n' := by
  intro c hc
  intro hcn
  subst hcn
  by_cases hneg : i < 0
  · rw [jsBigIntToString_data_neg i hneg] at hc
    rcases List.mem_cons.mp hc with h | h
    · exact absurd h (by decide)
    · exact absurd (natToDecimal_all_digits i.natAbs _ h) (by decide)
  · rw [jsBigIntToString_data_nonneg i hneg] at hc
    exact absurd (natToDecimal_all_digits i.natAbs _ hc) (by decide)

theorem removeFirstNChar_append (l : List Char) (h : ∀ c ∈ l, c ≠ 'n') :
    removeFirstNChar (l ++ ['n']) = l := by
  induction l with
  | nil => rfl
  | cons c t ih =>
    have hc : c ≠ 'n' := h c (List.mem_cons_self c t)
    show removeFirstNChar (c :: (t ++ ['n'])) = c :: t
    rw [removeFirstNChar, if_neg hc, ih fun x hx => h x (List.mem_cons_of_mem c hx)]

theorem jsReplaceFirstN_tag (i : ℤ) :
    jsReplaceFirstN (jsBigIntToString i ++ "n") = jsBigIntToString i := by
  rw [jsReplaceFirstN]
  have hd : (jsBigIntToString i ++ "n").data = (jsBigIntToString i).data ++ ['n'] := by
    rw [String.data_append]
  rw [hd, removeFirstNChar_append _ (jsBigIntToString_no_n i)]

theorem strTruthy_append_n (s : String) : strTruthy (some (s ++ "n")) = true := by
  rw [strTruthy]
  have hd : (s ++ "n").data = s.data ++ ['n'] := by
    rw [String.data_append]
  rw [hd]
  cases he : s.data ++ ['n'] with
  | nil => exact absurd he (by simp)
  | cons c t => rfl

/-- Decoding a response whose `type` is `'bigint'` and whose tag is the
one `convertArgument` produces yields the original big integer. -/
theorem valueFromRemoteObject_bigint (i : ℤ) (v : Option JSValue) (oid : Option String) :
    valueFromRemoteObject
      { type := some "bigint",
        unserializableValue := some (jsBigIntToString i ++ "n"),
        value := v, objectId := oid } = .ok (.bigint i) := by
  rw [valueFromRemoteObject]
  simp only [strTruthy_append_n, if_pos rfl, Option.getD_some, if_true]
  rw [jsReplaceFirstN_tag, jsBigIntToString_parse]

/-! ### Marshalling helper lemmas -/

theorem convertArgument_error_eq (a : JSValue) (e : BridgeError)
    (h : convertArgument a = .error e) : e = .handleDisposed := by
  cases a with
  | num n => cases n <;> simp [convertArgument] at h
  | handle d ty uv v oid =>
    rw [convertArgument] at h
    by_cases hd : d = true
    · subst hd
      rw [if_pos rfl] at h
      exact (Except.error.injEq _ _).mp h.symm
    · rw [Bool.not_eq_true] at hd
      subst hd
      rw [if_neg (by simp)] at h
      by_cases h1 : strTruthy uv = true
      · rw [if_pos h1] at h
        exact absurd h (by simp)
      · rw [if_neg h1] at h
        by_cases h2 : (!strTruthy oid) = true
        · rw [if_pos h2] at h
          exact absurd h (by simp)
        · rw [if_neg h2] at h
          exact absurd h (by simp)
  | _ => simp [convertArgument] at h

theorem convertArgument_disposed (a : JSValue) (h : isDisposedHandle a = true) :
    convertArgument a = .error .handleDisposed := by
  cases a with
  | handle d ty uv v oid =>
    cases d with
    | true => rfl
    | false => simp [isDisposedHandle] at h
  | num n => simp [isDisposedHandle] at h
  | _ => simp [isDisposedHandle] at h

theorem mapM_convertArgument_disposed (args : List JSValue)
    (hd : ∃ a ∈ args, isDisposedHandle a = true) :
    args.mapM convertArgument = .error .handleDisposed := by
  induction args with
  | nil => simp at hd
  | cons a t ih =>
    obtain ⟨x, hx, hdx⟩ := hd
    rw [List.mapM_cons]
    rcases List.mem_cons.mp hx with heq | hxt
    · rw [heq] at hdx
      rw [convertArgument_disposed a hdx]
      rfl
    · cases hca : convertArgument a with
      | error e =>
        rw [convertArgument_error_eq a e hca]
        rfl
      | ok b =>
        rw [ih ⟨x, hxt, hdx⟩]
        rfl

/-! ### Claim theorems -/

/-- C1, counterexample: the round trip as literally claimed —
`valueFromRemoteObject` applied to the very `CallArgument` that
`convertArgument` produced — fails for big integers: the `CallArgument`
for `5n` carries only the tag `"5n"` and no `type` field, and decoding
it raises the `Unsupported unserializable value` error instead of
returning the big integer `5`. -/
theorem C1_counterexample :
    convertArgument (.bigint 5) = .ok { unserializableValue := some "5n" } ∧
    valueFromRemoteObject { unserializableValue := some "5n" } =
      .error (.unsupportedUnserializable "5n") :=
  ⟨rfl, rfl⟩

/-- C1, amended: decoding the encoding is the identity for the four
float sentinels (with `-0` recovered as a value distinct from `+0`) and
for every finite number, which is forwarded as a plain value field; a
big integer's tag is its decimal digits followed by `n`, and it decodes
back to the original value once the response carries the `'bigint'`
type marker which the wire protocol supplies (the bare `CallArgument`
does not). -/
theorem C1_roundtrip_amended (i : ℤ) (q : ℚ) :
    (convertArgument (.num .negZero) = .ok { unserializableValue := some "-0" } ∧
      valueFromRemoteObject { unserializableValue := some "-0" } = .ok (.num .negZero)) ∧
    (convertArgument (.num .nan) = .ok { unserializableValue := some "NaN" } ∧
      valueFromRemoteObject { unserializableValue := some "NaN" } = .ok (.num .nan)) ∧
    (convertArgument (.num .inf) = .ok { unserializableValue := some "Infinity" } ∧
      valueFromRemoteObject { unserializableValue := some "Infinity" } = .ok (.num .inf)) ∧
    (convertArgument (.num .negInf) = .ok { unserializableValue := some "-Infinity" } ∧
      valueFromRemoteObject { unserializableValue := some "-Infinity" } = .ok (.num .negInf)) ∧
    JSValue.num .negZero ≠ JSValue.num (.finite 0) ∧
    (convertArgument (.num (.finite q)) = .ok { value := some (.num (.finite q)) } ∧
      valueFromRemoteObject { value := some (.num (.finite q)) } = .ok (.num (.finite q))) ∧
    (convertArgument (.bigint i) =
        .ok { unserializableValue := some (jsBigIntToString i ++ "n") } ∧
      valueFromRemoteObject
          { type := some "bigint"
            unserializableValue := some (jsBigIntToString i ++ "n") } =
        .ok (.bigint i)) := by
  refine ⟨⟨rfl, rfl⟩, ⟨rfl, rfl⟩, ⟨rfl, rfl⟩, ⟨rfl, rfl⟩, ?_, ⟨rfl, rfl⟩,
    rfl, valueFromRemoteObject_bigint i none none⟩
  intro h
  injection h with h2
  exact JSNum.noConfusion h2

/-- C2: `convertArgument` maps a big integer to the `<digits>n` tag,
`-0`/`Infinity`/`-Infinity`/`NaN` to their literal tags (checked by
identity, so `NaN` is caught and `+0` is not sent as `"-0"`), and every
finite number and every other non-handle value to a plain `{value}`
field unchanged. -/
theorem C2_convertArgument (i : ℤ) (q : ℚ) (s : String) (b : Bool) (n : ℕ)
    (src : String) :
    convertArgument (.bigint i) =
      .ok { unserializableValue := some (jsBigIntToString i ++ "n") } ∧
    convertArgument (.num .negZero) = .ok { unserializableValue := some "-0" } ∧
    convertArgument (.num .inf) = .ok { unserializableValue := some "Infinity" } ∧
    convertArgument (.num .negInf) = .ok { unserializableValue := some "-Infinity" } ∧
    convertArgument (.num .nan) = .ok { unserializableValue := some "NaN" } ∧
    convertArgument (.num (.finite q)) = .ok { value := some (.num (.finite q)) } ∧
    convertArgument (.num (.finite 0)) ≠ .ok { unserializableValue := some "-0" } ∧
    convertArgument (.str s) = .ok { value := some (.str s) } ∧
    convertArgument (.bool b) = .ok { value := some (.bool b) } ∧
    convertArgument .null = .ok { value := some .null } ∧
    convertArgument .undefined = .ok { value := some .undefined } ∧
    convertArgument (.obj n) = .ok { value := some (.obj n) } ∧
    convertArgument (.func src) = .ok { value := some (.func src) } := by
  refine ⟨rfl, rfl, rfl, rfl, rfl, rfl, ?_, rfl, rfl, rfl, rfl, rfl, rfl⟩
  intro h
  rw [show convertArgument (.num (.finite 0)) =
    .ok { value := some (.num (.finite 0)) } from rfl] at h
  injection h with h2
  have := congrArg RemoteObject.unserializableValue h2
  simp at this

/-- C3, counterexample: the ends-with rule is not unconditional.  A
message that ends with `"Cannot find context with specified id"` but
also contains `"Object reference chain is too long"` is downgraded to
the synthetic empty success, not replaced by the context-destroyed
error, because the `includes` checks run first. -/
theorem C3_counterexample :
    jsEndsWith "Object reference chain is too long: Cannot find context with specified id"
      "Cannot find context with specified id" = true ∧
    rewriteError "Object reference chain is too long: Cannot find context with specified id" =
      .ok { result := { type := some "undefined" } } ∧
    rewriteError "Object reference chain is too long: Cannot find context with specified id" ≠
      .error .executionContextDestroyed := by
  have hok : rewriteError
      "Object reference chain is too long: Cannot find context with specified id" =
      .ok { result := { type := some "undefined" } } := rfl
  refine ⟨by decide, hok, ?_⟩
  intro h
  rw [hok] at h
  exact Except.noConfusion h

/-- C3, amended: `rewriteError` is a total classification with exactly
three outcomes; a message containing either `includes` pattern is
downgraded to the synthetic empty success; a message free of both
`includes` patterns that ends with either recognized suffix becomes the
canonical context-destroyed error; and any other message is re-raised
unchanged. -/
theorem C3_classification_amended (msg : String) :
    (rewriteError msg = .ok { result := { type := some "undefined" } } ∨
      rewriteError msg = .error .executionContextDestroyed ∨
      rewriteError msg = .error (.transport msg)) ∧
    (jsIncludes msg "Object reference chain is too long" = true ∨
        jsIncludes msg "Object couldn't be returned by value" = true →
      rewriteError msg = .ok { result := { type := some "undefined" } }) ∧
    (jsIncludes msg "Object reference chain is too long" = false →
      jsIncludes msg "Object couldn't be returned by value" = false →
      (jsEndsWith msg "Cannot find context with specified id" = true ∨
        jsEndsWith msg "Inspected target navigated or closed" = true) →
      rewriteError msg = .error .executionContextDestroyed) ∧
    (jsIncludes msg "Object reference chain is too long" = false →
      jsIncludes msg "Object couldn't be returned by value" = false →
      jsEndsWith msg "Cannot find context with specified id" = false →
      jsEndsWith msg "Inspected target navigated or closed" = false →
      rewriteError msg = .error (.transport msg)) := by
  rw [rewriteError]
  cases h1 : jsIncludes msg "Object reference chain is too long" <;>
    cases h2 : jsIncludes msg "Object couldn't be returned by value" <;>
      cases h3 : jsEndsWith msg "Cannot find context with specified id" <;>
        cases h4 : jsEndsWith msg "Inspected target navigated or closed" <;>
          simp [h1, h2, h3, h4]

/-- C3, witness for the amended classification, at a message matching
none of the patterns. -/
theorem C3_classification_amended_witness :
    rewriteError "boom" = .error (.transport "boom") :=
  (C3_classification_amended "boom").2.2.2 (by decide) (by decide) (by decide) (by decide)

/-- C4, counterexample: a response whose unserializable tag is the
digit string `"7n"` but whose `type` is not `'bigint'` raises the
`Unsupported unserializable value` error, although the claim says a
digit string suffixed with `n` decodes to the corresponding big integer
(here `7`, the value the tag's digits denote). -/
theorem C4_counterexample :
    valueFromRemoteObject { type := some "string", unserializableValue := some "7n" } =
      .error (.unsupportedUnserializable "7n") ∧
    jsBigIntOfString? (jsReplaceFirstN "7n") = some 7 :=
  ⟨rfl, rfl⟩

/-- C4, amended: the big-integer reverse mapping is selected by the
response's `type` field being `'bigint'` (the tag minus its first `n`
parsed as a decimal integer); for every response whose `type` is not
`'bigint'`, exactly the four literal tags decode to their sentinel
values, and any other truthy tag raises the fatal
`Unsupported unserializable value` error. -/
theorem C4_decode_amended (i : ℤ) (ty : Option String) (v : Option JSValue)
    (oid : Option String) (tag : String)
    (hty : ¬ty = some "bigint")
    (htag : ¬tag ∈ (["-0", "NaN", "Infinity", "-Infinity"] : List String))
    (hne : ¬tag = "") :
    valueFromRemoteObject
        { type := some "bigint"
          unserializableValue := some (jsBigIntToString i ++ "n")
          value := v, objectId := oid } =
      .ok (.bigint i) ∧
    valueFromRemoteObject { type := ty, unserializableValue := some "-0", value := v, objectId := oid } =
      .ok (.num .negZero) ∧
    valueFromRemoteObject { type := ty, unserializableValue := some "NaN", value := v, objectId := oid } =
      .ok (.num .nan) ∧
    valueFromRemoteObject { type := ty, unserializableValue := some "Infinity", value := v, objectId := oid } =
      .ok (.num .inf) ∧
    valueFromRemoteObject { type := ty, unserializableValue := some "-Infinity", value := v, objectId := oid } =
      .ok (.num .negInf) ∧
    valueFromRemoteObject { type := ty, unserializableValue := some tag, value := v, objectId := oid } =
      .error (.unsupportedUnserializable tag) := by
  refine ⟨valueFromRemoteObject_bigint i v oid, ?_, ?_, ?_, ?_, ?_⟩
  · rw [valueFromRemoteObject]
    simp only [if_neg hty]
    rfl
  · rw [valueFromRemoteObject]
    simp only [if_neg hty]
    rfl
  · rw [valueFromRemoteObject]
    simp only [if_neg hty]
    rfl
  · rw [valueFromRemoteObject]
    simp only [if_neg hty]
    rfl
  · rw [valueFromRemoteObject]
    have htr : strTruthy (some tag) = true := by
      rw [strTruthy]
      cases he : tag.data with
      | nil => exact absurd (String.ext he) hne
      | cons c t => rfl
    simp only [htr, if_true, if_neg hty, Option.getD_some]
    have h1 : ¬tag = "-0" := fun h => htag (by rw [h]; simp)
    have h2 : ¬tag = "NaN" := fun h => htag (by rw [h]; simp)
    have h3 : ¬tag = "Infinity" := fun h => htag (by rw [h]; simp)
    have h4 : ¬tag = "-Infinity" := fun h => htag (by rw [h]; simp)
    rw [if_neg h1, if_neg h2, if_neg h3, if_neg h4]

/-- C4, witness for the amended decode mapping. -/
theorem C4_decode_amended_witness :
    valueFromRemoteObject
        { type := some "bigint"
          unserializableValue := some (jsBigIntToString 7 ++ "n") } =
      .ok (.bigint 7) ∧
    valueFromRemoteObject { type := some "number", unserializableValue := some "-0" } =
      .ok (.num .negZero) ∧
    valueFromRemoteObject { type := some "number", unserializableValue := some "weird" } =
      .error (.unsupportedUnserializable "weird") :=
  have h := C4_decode_amended 7 (some "number") none none "weird"
    (by decide) (by decide) (by decide)
  ⟨h.1, h.2.1, h.2.2.2.2.2⟩

/-- C5, counterexample: in the expression-evaluation call shape the
argument list is ignored entirely, so a disposed handle among the
arguments neither raises the handle-disposed error nor stops the
transport command: the call still sends `Runtime.evaluate` and
succeeds. -/
theorem C5_counterexample :
    isDisposedHandle (.handle true none none none none) = true ∧
    (evaluateInternal trivHost (okTransport (.num (.finite 2))) 1 (.str "1+1") none
        [.handle true none none none none]).1 = .ok (.num (.finite 2)) ∧
    (evaluateInternal trivHost (okTransport (.num (.finite 2))) 1 (.str "1+1") none
        [.handle true none none none none]).2 =
      [.evaluate "1+1\n//# sourceURL=__puppeteer_evaluation_script__" 1 true true true] :=
  ⟨rfl, rfl, rfl⟩

/-- C5, amended: in the function-invocation shape (with a parseable
callable) a disposed handle among the arguments fails the call with the
handle-disposed error before any transport command is issued; in the
expression shape the arguments are never marshalled (the outcome is the
same as with no arguments at all) and the transport command is still
issued. -/
theorem C5_disposed_amended (host : Host) (transport : Command → TransportResult)
    (ctx : ℕ) (frame : Option ℤ) (src expr : String) (args : List JSValue)
    (hp : host.parses ("(" ++ src ++ ")") = true)
    (hd : ∃ a ∈ args, isDisposedHandle a = true) :
    evaluateInternal host transport ctx (.func src) frame args =
      (.error .handleDisposed, []) ∧
    evaluateInternal host transport ctx (.str expr) frame args =
      evaluateInternal host transport ctx (.str expr) frame [] ∧
    (evaluateInternal host transport ctx (.str expr) frame args).2 ≠ [] := by
  refine ⟨?_, rfl, ?_⟩
  · simp only [evaluateInternal]
    rw [if_pos hp, mapM_convertArgument_disposed args hd]
  · intro h
    exact List.noConfusion h

/-- C5, witness for the amended statement, at a one-element argument
list holding a disposed handle. -/
theorem C5_disposed_amended_witness :
    (∃ a ∈ ([JSValue.handle true none none none none] : List JSValue),
      isDisposedHandle a = true) ∧
    evaluateInternal permissiveHost (okTransport .null) 7 (.func "() => 1") none
      [.handle true none none none none] = (.error .handleDisposed, []) :=
  have hd : ∃ a ∈ ([JSValue.handle true none none none none] : List JSValue),
      isDisposedHandle a = true :=
    ⟨.handle true none none none none, List.mem_cons_self _ _, rfl⟩
  ⟨hd, (C5_disposed_amended permissiveHost (okTransport .null) 7 none "() => 1" "x"
    [.handle true none none none none] rfl hd).1⟩

/-- C6: when the callable's printed text fails to parse wrapped in
parentheses, exactly one repair is attempted — `function ` inserted
after a leading `async ` prefix, else prepended — and if the repaired
text also fails, the call raises the malformed-callable error with no
transport command issued; if the repair parses, the repaired text (and
no further rewrite) is what the single command carries. -/
theorem C6_repair (host : Host) (transport : Command → TransportResult) (ctx : ℕ)
    (frame : Option ℤ) (args : List JSValue) (src : String)
    (h0 : host.parses ("(" ++ src ++ ")") = false) :
    (jsStartsWith src "async " = true →
      repairedText src = "async function " ++ jsDropChars src 6) ∧
    (jsStartsWith src "async " = false → repairedText src = "function " ++ src) ∧
    (host.parses ("(" ++ repairedText src ++ ")") = false →
      evaluateInternal host transport ctx (.func src) frame args =
        (.error .malformedCallable, [])) ∧
    (∀ margs, host.parses ("(" ++ repairedText src ++ ")") = true →
      args.mapM convertArgument = .ok margs →
      evaluateInternal host transport ctx (.func src) frame args =
        (handleResponse host frame (transport (.callFunctionOn
            (repairedText src ++ "\n" ++ sourceUrlSuffix ++ "\n") ctx margs true true true)),
         [.callFunctionOn (repairedText src ++ "\n" ++ sourceUrlSuffix ++ "\n") ctx margs
            true true true])) := by
  refine ⟨?_, ?_, ?_, ?_⟩
  · intro h
    rw [repairedText, if_pos h]
  · intro h
    rw [repairedText, if_neg (by simp [h])]
  · intro h1
    simp only [evaluateInternal]
    rw [if_neg (by simp [h0]), if_neg (by simp [h1])]
  · intro margs h1 h2
    simp only [evaluateInternal]
    rw [if_neg (by simp [h0]), if_pos h1, h2]

/-- C6, witness: a shorthand-method text under a host that rejects both
the original and the repaired text yields the malformed-callable error
and an empty command trace. -/
theorem C6_repair_witness :
    jsStartsWith "f() {}" "async " = false ∧
    repairedText "f() {}" = "function " ++ "f() {}" ∧
    evaluateInternal trivHost (okTransport .null) 3 (.func "f() {}") none [] =
      (.error .malformedCallable, []) :=
  have h := C6_repair trivHost (okTransport .null) 3 none [] "f() {}" rfl
  ⟨rfl, h.2.1 rfl, h.2.2.1 rfl⟩

/-- C7: expression text in which the source-URL pattern already matches
some line is transmitted unchanged; otherwise exactly one marker line
`//# sourceURL=__puppeteer_evaluation_script__` is appended as the
final line of the transmitted text. -/
theorem C7_sourceUrl (host : Host) (transport : Command → TransportResult)
    (ctx : ℕ) (frame : Option ℤ) (args : List JSValue) (expr : String) :
    sourceUrlSuffix = "//# sourceURL=__puppeteer_evaluation_script__" ∧
    (sourceUrlTest expr = true →
      evaluateInternal host transport ctx (.str expr) frame args =
        (handleResponse host frame (transport (.evaluate expr ctx true true true)),
         [.evaluate expr ctx true true true])) ∧
    (sourceUrlTest expr = false →
      evaluateInternal host transport ctx (.str expr) frame args =
        (handleResponse host frame
            (transport (.evaluate (expr ++ "\n" ++ sourceUrlSuffix) ctx true true true)),
         [.evaluate (expr ++ "\n" ++ sourceUrlSuffix) ctx true true true])) := by
  refine ⟨rfl, ?_, ?_⟩
  · intro h
    simp only [evaluateInternal]
    rw [if_pos h]
  · intro h
    simp only [evaluateInternal]
    rw [if_neg (by simp [h])]

/-- C7, witness: a marked expression goes through unchanged and an
unmarked one gets the marker appended. -/
theorem C7_sourceUrl_witness :
    sourceUrlTest "//# sourceURL=foo" = true ∧
    evaluateInternal trivHost (okTransport .null) 2 (.str "//# sourceURL=foo") none [] =
      (handleResponse trivHost none
          (okTransport .null (.evaluate "//# sourceURL=foo" 2 true true true)),
       [.evaluate "//# sourceURL=foo" 2 true true true]) ∧
    sourceUrlTest "1+1" = false ∧
    evaluateInternal trivHost (okTransport .null) 2 (.str "1+1") none [] =
      (handleResponse trivHost none (okTransport .null
          (.evaluate ("1+1" ++ "\n" ++ sourceUrlSuffix) 2 true true true)),
       [.evaluate ("1+1" ++ "\n" ++ sourceUrlSuffix) 2 true true true]) :=
  ⟨by decide,
   (C7_sourceUrl trivHost (okTransport .null) 2 none [] "//# sourceURL=foo").2.1 (by decide),
   by decide,
   (C7_sourceUrl trivHost (okTransport .null) 2 none [] "1+1").2.2 (by decide)⟩

/-- C8: whenever the transport response carries an exception payload,
the call raises (and does not return a value) the structured error
whose name is the remote exception's class name, whose message is the
first line of the remote description, whose stack is the full
description, whose frame list is the stack parsing of the description's
lines, and which carries the invoker-supplied calling-frame index — in
both call shapes. -/
theorem C8_remoteFailure (host : Host) (ctx : ℕ) (frame : Option ℤ) (expr src : String)
    (args : List JSValue) (ed : ExceptionPayload) (robj : RemoteObject) :
    (evaluateInternal host (fun _ => .ok { exceptionDetails := some ed, result := robj })
        ctx (.str expr) frame args).1 =
      .error (.remoteFailure ed.description ed.className
        ((jsSplitNewline ed.description).headD "") frame
        (host.parseStack (jsSplitNewline ed.description))) ∧
    (∀ margs, host.parses ("(" ++ src ++ ")") = true →
      args.mapM convertArgument = .ok margs →
      (evaluateInternal host (fun _ => .ok { exceptionDetails := some ed, result := robj })
          ctx (.func src) frame args).1 =
        .error (.remoteFailure ed.description ed.className
          ((jsSplitNewline ed.description).headD "") frame
          (host.parseStack (jsSplitNewline ed.description)))) := by
  constructor
  · rfl
  · intro margs h1 h2
    simp only [evaluateInternal]
    rw [if_pos h1, h2]
    rfl

/-- C8, witness at a concrete exception payload. -/
theorem C8_remoteFailure_witness :
    (evaluateInternal permissiveHost
        (fun _ => .ok
          { exceptionDetails := some ⟨"TypeError", "TypeError: boom\n    at foo"⟩
            result := {} })
        1 (.func "() => 1") none []).1 =
      .error (.remoteFailure "TypeError: boom\n    at foo" "TypeError"
        "TypeError: boom" none []) :=
  (C8_remoteFailure permissiveHost 1 none "x" "() => 1" []
    ⟨"TypeError", "TypeError: boom\n    at foo"⟩ {}).2 [] rfl rfl

/-- C9: for a live (non-disposed) handle the marshalled `CallArgument`
is, in precedence order, the handle's own unserializable tag when
truthy, else its plain value when it has no truthy object identifier,
else the object-identifier reference — each branch populating exactly
one wire field. -/
theorem C9_handle_precedence (ty uv oid : Option String) (v : Option JSValue) :
    (strTruthy uv = true →
      convertArgument (.handle false ty uv v oid) = .ok { unserializableValue := uv }) ∧
    (strTruthy uv = false → strTruthy oid = false →
      convertArgument (.handle false ty uv v oid) = .ok { value := v }) ∧
    (strTruthy uv = false → strTruthy oid = true →
      convertArgument (.handle false ty uv v oid) = .ok { objectId := oid }) := by
  refine ⟨?_, ?_, ?_⟩
  · intro h
    simp only [convertArgument]
    rw [if_neg (by simp), if_pos h]
  · intro h1 h2
    simp only [convertArgument]
    rw [if_neg (by simp), if_neg (by simp [h1]), if_pos (by simp [h2])]
  · intro h1 h2
    simp only [convertArgument]
    rw [if_neg (by simp), if_neg (by simp [h1]), if_neg (by simp [h2])]

/-- C9, witness exercising all three precedence branches. -/
theorem C9_handle_precedence_witness :
    convertArgument (.handle false none (some "-0") none (some "42")) =
      .ok { unserializableValue := some "-0" } ∧
    convertArgument (.handle false none none (some .null) none) =
      .ok { value := some .null } ∧
    convertArgument (.handle false none none none (some "42")) =
      .ok { objectId := some "42" } :=
  ⟨(C9_handle_precedence none (some "-0") (some "42") none).1 rfl,
   (C9_handle_precedence none none none (some .null)).2.1 rfl rfl,
   (C9_handle_precedence none none (some "42") none).2.2 rfl rfl⟩

/-- C10: a program input that is neither a string nor a function is
rejected with the local expected-string-or-function error, with no
transport command issued and the argument list untouched (the outcome
is a constant independent of the arguments). -/
theorem C10_nonstring_nonfunction (host : Host) (transport : Command → TransportResult)
    (ctx : ℕ) (v : JSValue) (frame : Option ℤ) (args : List JSValue)
    (h1 : isStringValue v = false) (h2 : isFunctionValue v = false) :
    evaluateInternal host transport ctx v frame args =
      (.error .expectedStringOrFunction, []) := by
  cases v <;> try rfl
  · simp [isStringValue] at h1
  · simp [isFunctionValue] at h2

/-- C10, witness at the numeric input `3`. -/
theorem C10_nonstring_nonfunction_witness :
    isStringValue (.num (.finite 3)) = false ∧
    isFunctionValue (.num (.finite 3)) = false ∧
    evaluateInternal trivHost (okTransport .null) 0 (.num (.finite 3)) none [] =
      (.error .expectedStringOrFunction, []) :=
  ⟨rfl, rfl, C10_nonstring_nonfunction trivHost (okTransport .null) 0
    (.num (.finite 3)) none [] rfl rfl⟩

end Bridge
